import Mathlib

/-!
Shallow embedding of the `rik` orchestrator's function runtime
(`src/riklet/src/runtime/function_runtime.rs`) and of the controller's
workload-creation route (`src/controller/src/api/external/routes/workload.rs`),
together with theorems settling the specification claims about them.

Effectful Rust code is modelled by explicit state passing: the external world
visible to an observer (tap device, VM socket, firewall rules, running VM,
filesystem) is a value threaded through the operations, and the success or
failure of each collaborator call (network, Firecracker driver, HTTP transfer,
database) is injected through an explicit environment/oracle argument.
-/

namespace Rik

/-- Decidable equality for `Except`, needed so that runtime results can be
compared by `decide` in concrete evaluations. -/
instance instDecidableEqExcept {ε α : Type} [DecidableEq ε] [DecidableEq α] :
    DecidableEq (Except ε α) := fun a b =>
  match a, b with
  | .error e, .error e' =>
      if h : e = e' then .isTrue (by simp [h]) else .isFalse (by simp [h])
  | .error _, .ok _ => .isFalse (by simp)
  | .ok _, .error _ => .isFalse (by simp)
  | .ok a, .ok a' =>
      if h : a = a' then .isTrue (by simp [h]) else .isFalse (by simp [h])

/-- The `RuntimeError` variants used by `function_runtime.rs`
(payloads are modelled as their display strings). -/
inductive RuntimeError where
  | FetchingError (msg : String)
  | NetworkError (msg : String)
  | FirecrackerError (msg : String)
  | FirepilotConfiguration (msg : String)
  | NotRunning (msg : String)
  | IoError (msg : String)
  | ParsingError (msg : String)
  | Error (msg : String)
deriving DecidableEq, Repr

/-- Constant `BOOT_ARGS_STATIC` from `function_runtime.rs`. -/
def BOOT_ARGS_STATIC : String :=
  "console=ttyS0 reboot=k nomodules random.trust_cpu=on panic=1 pci=off tsc=reliable i8042.nokbd i8042.noaux quiet loglevel=0"

/-- Constant `DEFAULT_FIRECRACKER_WORKSPACE` from the riklet constants
(spec: chroot root default `/srv/firecracker`). -/
def DEFAULT_FIRECRACKER_WORKSPACE : String := "/srv/firecracker"

/-- Modelled from the spec: `FunctionRuntimeNetwork` (the network module is not
under `src/`). Only the pieces read by `function_runtime.rs` are kept: the
displayed `guest_ip`, `host_ip` and `mask_long`, and the outcome of the
fallible `tap_name()` accessor. -/
structure FunctionRuntimeNetwork where
  guest_ip : String
  host_ip : String
  mask_long : String
  tap : Except String String
deriving DecidableEq, Repr

/-- Modelled from the spec: `tap_name()` returns the deterministic tap device
name, or a network error. -/
def FunctionRuntimeNetwork.tap_name (n : FunctionRuntimeNetwork) : Except String String :=
  n.tap

/-- Configuration `FnConfiguration`: operator-configured kernel and Firecracker paths. -/
structure FnConfiguration where
  kernel_location : String
  firecracker_location : String
deriving DecidableEq, Repr

/-- A live Firecracker machine handle (`firepilot::machine::Machine`);
for the lifecycle claims only its presence matters. -/
inductive Machine where
  | mk
deriving DecidableEq, Repr

/-- Struct `FunctionRuntime` from `function_runtime.rs`. -/
structure FunctionRuntime where
  id : String
  function_config : FnConfiguration
  file_path : String
  network : FunctionRuntimeNetwork
  machine : Option Machine
deriving DecidableEq, Repr

/-- The kernel boot args assembled by `generate_microvm_config`:
`format!("{} ip={}::{}:{}::eth0:off", BOOT_ARGS_STATIC, guest_ip, host_ip, mask_long)`. -/
def kernel_args (n : FunctionRuntimeNetwork) : String :=
  BOOT_ARGS_STATIC ++ " ip=" ++ n.guest_ip ++ "::" ++ n.host_ip ++ ":" ++ n.mask_long
    ++ "::eth0:off"

/-- The kernel slot of the microVM `Configuration`. -/
structure KernelConfig where
  image_path : String
  boot_args : String
deriving DecidableEq, Repr

/-- The root-drive slot of the microVM `Configuration`. -/
structure DriveConfig where
  drive_id : String
  path_on_host : String
  is_root_device : Bool
deriving DecidableEq, Repr

/-- The network-interface slot of the microVM `Configuration`. -/
structure NetIfaceConfig where
  iface_id : String
  guest_mac : String
  host_dev_name : String
deriving DecidableEq, Repr

/-- The executor slot of the microVM `Configuration`. -/
structure ExecutorConfig where
  chroot : String
  exec_binary : String
deriving DecidableEq, Repr

/-- The assembled `firepilot::builder::Configuration` bundle. -/
structure Configuration where
  id : String
  kernel : KernelConfig
  drive : DriveConfig
  net_iface : NetIfaceConfig
  executor : ExecutorConfig
deriving DecidableEq, Repr

/-- Model of `FunctionRuntime::generate_microvm_config`. The guest MAC is random in the
source (`generate_mac_addr()`), so it is passed in as a parameter. The only
fallible sub-step on the given inputs is `network.tap_name()`, mapped to
`RuntimeError::NetworkError` as in the source. -/
def FunctionRuntime.generate_microvm_config (rt : FunctionRuntime) (mac : String) :
    Except RuntimeError Configuration :=
  match rt.network.tap_name with
  | .error e => .error (.NetworkError e)
  | .ok tap =>
      .ok { id := rt.id
            kernel := { image_path := rt.function_config.kernel_location
                        boot_args := kernel_args rt.network }
            drive := { drive_id := "rootfs"
                       path_on_host := rt.file_path
                       is_root_device := true }
            net_iface := { iface_id := "eth0"
                           guest_mac := mac
                           host_dev_name := tap }
            executor := { chroot := DEFAULT_FIRECRACKER_WORKSPACE
                          exec_binary := rt.function_config.firecracker_location } }

/-- Observable external host state touched by a function runtime instance:
the tap device (made by `network.init`), the VM socket (made by
`machine.create`), the firewall rules and tap IP (made by `network.preboot`),
and whether the guest VM is running (made by `machine.start`). -/
structure ExtState where
  tapExists : Bool
  socketExists : Bool
  rulesInstalled : Bool
  vmRunning : Bool
deriving DecidableEq, Repr

/-- The external state before any `up()` call. -/
def ExtState.clean : ExtState :=
  { tapExists := false, socketExists := false, rulesInstalled := false, vmRunning := false }

/-- Collaborator calls made by `up()` / `down()`, recorded in order. -/
inductive Event where
  | networkInit
  | configBuild
  | machineCreate
  | networkPreboot
  | machineStart
  | machineKill
  | networkDestroy
deriving DecidableEq, Repr

/-- Outcome oracle for the fallible collaborator calls inside `up()`:
whether each call, when reached, succeeds. -/
structure StepOutcomes where
  initOk : Bool
  configOk : Bool
  createOk : Bool
  prebootOk : Bool
  startOk : Bool
deriving DecidableEq, Repr

/-- Result of running `up()` or `down()`: the runtime value after the call, the
external state, the trace of collaborator calls attempted, and the returned
`Result`. -/
structure RunResult where
  rt : FunctionRuntime
  state : ExtState
  trace : List Event
  result : Except RuntimeError Unit
deriving DecidableEq, Repr

/-- Model of `FunctionRuntime::up` from `function_runtime.rs`, line for line:
`network.init()?`, `generate_microvm_config()?`, `machine.create(cfg)?`,
`network.preboot()?`, `machine.start()?`, `self.machine = Some(machine)`.
Every `?` propagates the mapped error immediately; a call's external effect
is applied when the call succeeds. -/
def FunctionRuntime.up (rt : FunctionRuntime) (env : StepOutcomes) (s : ExtState) : RunResult :=
  if !env.initOk then
    { rt := rt, state := s, trace := [.networkInit]
      result := .error (.NetworkError "network init failed") }
  else
    let s := { s with tapExists := true }
    if !env.configOk then
      { rt := rt, state := s, trace := [.networkInit, .configBuild]
        result := .error (.FirepilotConfiguration "invalid configuration") }
    else if !env.createOk then
      { rt := rt, state := s, trace := [.networkInit, .configBuild, .machineCreate]
        result := .error (.FirecrackerError "machine create failed") }
    else
      let s := { s with socketExists := true }
      if !env.prebootOk then
        { rt := rt, state := s
          trace := [.networkInit, .configBuild, .machineCreate, .networkPreboot]
          result := .error (.NetworkError "network preboot failed") }
      else
        let s := { s with rulesInstalled := true }
        if !env.startOk then
          { rt := rt, state := s
            trace := [.networkInit, .configBuild, .machineCreate, .networkPreboot, .machineStart]
            result := .error (.FirecrackerError "machine start failed") }
        else
          { rt := { rt with machine := some ⟨⟩ }
            state := { s with vmRunning := true }
            trace := [.networkInit, .configBuild, .machineCreate, .networkPreboot, .machineStart]
            result := .ok () }

/-- Outcome oracle for the fallible collaborator calls inside `down()`. -/
structure DownOutcomes where
  killOk : Bool
  destroyOk : Bool
deriving DecidableEq, Repr

/-- Model of `FunctionRuntime::down` from `function_runtime.rs`: on `machine = None`
return `NotRunning`; otherwise `machine.kill()?` (note the `?`: a kill error is
propagated at once), then `network.destroy()` whose error is mapped and
returned. The source never assigns `self.machine = None`. -/
def FunctionRuntime.down (rt : FunctionRuntime) (env : DownOutcomes) (s : ExtState) : RunResult :=
  match rt.machine with
  | none =>
      { rt := rt, state := s, trace := []
        result := .error (.NotRunning ("microVM " ++ rt.id ++ " is not running")) }
  | some _ =>
      if !env.killOk then
        { rt := rt, state := s, trace := [.machineKill]
          result := .error (.FirecrackerError "machine kill failed") }
      else
        let s := { s with vmRunning := false, socketExists := false }
        if !env.destroyOk then
          { rt := rt, state := s, trace := [.machineKill, .networkDestroy]
            result := .error (.NetworkError "network destroy failed") }
        else
          { rt := rt
            state := { s with tapExists := false, rulesInstalled := false }
            trace := [.machineKill, .networkDestroy]
            result := .ok () }

/-- A filesystem entry: a regular file with its byte contents, or a directory. -/
inductive FsEntry where
  | file (contents : List Nat)
  | dir
deriving DecidableEq, Repr

/-- The host filesystem, as a finite association of absolute paths to entries
(later bindings shadow earlier ones). -/
abbrev FileSystem := List (String × FsEntry)

/-- Predicate for `Path::exists`. -/
def pathExists (fs : FileSystem) (path : String) : Bool :=
  (fs.lookup path).isSome

/-- Model of `File::create` followed by `write_all`: bind `path` to a file holding
exactly `contents`. -/
def createFile (fs : FileSystem) (path : String) (contents : List Nat) : FileSystem :=
  (path, .file contents) :: fs

/-- Model of `fs::create_dir`: fails when the path already exists, otherwise adds the
directory. -/
def createDir (fs : FileSystem) (path : String) : FileSystem × Except RuntimeError Unit :=
  if pathExists fs path then (fs, .error (.IoError "File exists"))
  else ((path, .dir) :: fs, .ok ())

/-- Model of `fs::remove_dir_all`: recursively remove the directory and everything
under it. -/
def removeDirAll (fs : FileSystem) (path : String) : FileSystem :=
  fs.filter fun e => !(e.1 == path || String.isPrefixOf (path ++ "/") e.1)

/-- The outcome of one HTTP GET (after redirect-following): either a transport
failure during the transfer, or a final response code with the full body. -/
inductive HttpOutcome where
  | transportError (msg : String)
  | response (code : Nat) (body : List Nat)
deriving DecidableEq, Repr

/-- Model of `FunctionRuntimeManager::download_image` from `function_runtime.rs`:
the transfer appends the body to an in-memory buffer; a transport failure is
`RuntimeError::FetchingError`; a response code other than 200 yields
`RuntimeError::Error("Response code from registry: <code>")`; only after a
successful 200 transfer is the destination file created and the buffer written
to it. -/
def download_image (resp : HttpOutcome) (file_path : String) (fs : FileSystem) :
    FileSystem × Except RuntimeError Unit :=
  match resp with
  | .transportError msg => (fs, .error (.FetchingError msg))
  | .response code body =>
      if code ≠ 200 then
        (fs, .error (.Error ("Response code from registry: " ++ toString code)))
      else
        (createFile fs file_path body, .ok ())

/-- Modelled from the spec: the optional `spec.function` entry of a
`WorkloadDefinition` (the `definition` crate is not under `src/`); it carries
the rootfs URL. -/
structure FunctionSpec where
  rootfs_url : String
deriving DecidableEq, Repr

/-- Modelled from the spec: a `WorkloadDefinition` as consumed by the runtime
and the controller routes: `kind`, unique `name`, and the optional
`spec.function` entry. -/
structure WorkloadDefinition where
  kind : String
  name : String
  spec_function : Option FunctionSpec
deriving DecidableEq, Repr

/-- Modelled from the spec: `WorkloadDefinition::get_rootfs_url` returns the
rootfs URL of the `spec.function` entry when present. -/
def WorkloadDefinition.get_rootfs_url (w : WorkloadDefinition) : Option String :=
  w.spec_function.map fun f => f.rootfs_url

/-- Model of `FunctionRuntimeManager::create_fs` from `function_runtime.rs`:
resolve the rootfs URL (`Error "Rootfs url not found"` when absent); derive
`/tmp/<name>` and `/tmp/<name>/rootfs.ext4`; if the file exists return it at
once; otherwise `create_dir`, `download_image`, and on a download error
`remove_dir_all` the download directory before propagating the error.
The HTTP oracle `http` gives the outcome of fetching each URL. -/
def create_fs (http : String → HttpOutcome) (w : WorkloadDefinition) (fs : FileSystem) :
    FileSystem × Except RuntimeError String :=
  match w.get_rootfs_url with
  | none => (fs, .error (.Error "Rootfs url not found"))
  | some rootfs_url =>
      let download_directory := "/tmp/" ++ w.name
      let file_path := download_directory ++ "/rootfs.ext4"
      if pathExists fs file_path then (fs, .ok file_path)
      else
        match createDir fs download_directory with
        | (fs1, .error e) => (fs1, .error e)
        | (fs1, .ok ()) =>
            match download_image (http rootfs_url) file_path fs1 with
            | (fs2, .ok ()) => (fs2, .ok file_path)
            | (fs2, .error e) => (removeDirAll fs2 download_directory, .error e)

/-- An HTTP response produced by a controller route handler. -/
structure RouteResponse where
  body : String
  status : Nat
deriving DecidableEq, Repr

/-- The JSON body `serde_json serialization of OnlyId` of a successful
workload creation. -/
def onlyIdJson (id : Nat) : String :=
  "\x7b\"id\":" ++ toString id ++ "\x7d"

/-- What the `create` route handler in
`src/controller/src/api/external/routes/workload.rs` does after reading the
request body: parse it as a `WorkloadDefinition` (a parse error propagates as
`Err` via `?`); if `check_duplicate_name` on
`/workload/<kind>/default/<name>` returns `Ok`, answer
`"Name already used"` with status 404 without inserting; otherwise attempt the
insert, answering the `OnlyId` JSON with 200 on success and
`"Cannot create workload"` with 500 on failure. The returned `Bool` records
whether `RikRepository::insert` was invoked. `dupOk` is the oracle for
`check_duplicate_name` succeeding, `insertResult` for the insert. -/
def workload_create (parsed : Except String WorkloadDefinition) (dupOk : Bool)
    (insertResult : Option Nat) : Except String (RouteResponse × Bool) :=
  match parsed with
  | .error e => .error e
  | .ok _workload =>
      if dupOk then
        .ok ({ body := "Name already used", status := 404 }, false)
      else
        match insertResult with
        | some inserted_id => .ok ({ body := onlyIdJson inserted_id, status := 200 }, true)
        | none => .ok ({ body := "Cannot create workload", status := 500 }, true)

/-! Concrete fixtures used to evaluate the model on explicit inputs. -/

/-- A sample per-instance network in the spec's default pool: first /30 subnet. -/
def sampleNetwork : FunctionRuntimeNetwork :=
  { guest_ip := "10.0.0.2", host_ip := "10.0.0.1", mask_long := "255.255.255.252"
    tap := .ok "tap_1" }

/-- A sample function runtime before any lifecycle call (`machine = None`). -/
def sampleRuntime : FunctionRuntime :=
  { id := "inst-1"
    function_config := { kernel_location := "/var/lib/rik/kernel"
                         firecracker_location := "/usr/bin/firecracker" }
    file_path := "/tmp/hello/rootfs.ext4"
    network := sampleNetwork
    machine := none }

/-- A sample runtime holding a live machine handle (`machine = Some`). -/
def runningRuntime : FunctionRuntime :=
  { sampleRuntime with machine := some .mk }

/-- An outcome oracle under which every `up()` step succeeds. -/
def allStepsOk : StepOutcomes :=
  { initOk := true, configOk := true, createOk := true, prebootOk := true, startOk := true }

/-- An outcome oracle failing exactly at `network.preboot()` (step 4 of `up()`). -/
def failAtPreboot : StepOutcomes :=
  { initOk := true, configOk := true, createOk := true, prebootOk := false, startOk := true }

/-- An HTTP oracle whose registry always answers 404 with an empty body. -/
def http404 : String → HttpOutcome := fun _ => .response 404 []

/-- An HTTP oracle whose registry always answers 200 with a 3-byte body. -/
def http200 : String → HttpOutcome := fun _ => .response 200 [1, 2, 3]

/-- An HTTP oracle whose transport always fails. -/
def httpDown : String → HttpOutcome := fun _ => .transportError "connection refused"

/-- A sample function workload named `hello` with a rootfs URL. -/
def helloWorkload : WorkloadDefinition :=
  { kind := "function", name := "hello"
    spec_function := some { rootfs_url := "http://registry/rootfs.ext4" } }

/-- A sample workload of kind `function` whose spec has no `function` entry. -/
def noFnWorkload : WorkloadDefinition :=
  { kind := "function", name := "hello", spec_function := none }

/-! Helper lemmas shared by several claims. -/

/-- String append is associative (componentwise on the underlying char lists). -/
theorem string_append_assoc (a b c : String) : a ++ b ++ c = a ++ (b ++ c) := by
  rcases a with ⟨a⟩; rcases b with ⟨b⟩; rcases c with ⟨c⟩
  show String.append (String.append ⟨a⟩ ⟨b⟩) ⟨c⟩ = String.append ⟨a⟩ (String.append ⟨b⟩ ⟨c⟩)
  simp [String.append, List.append_assoc]

/-- After `removeDirAll fs d`, neither `d` itself nor any path under `d/` exists. -/
theorem pathExists_removeDirAll (fs : FileSystem) (d p : String)
    (h : p = d ∨ String.isPrefixOf (d ++ "/") p = true) :
    pathExists (removeDirAll fs d) p = false := by
  induction fs with
  | nil => rfl
  | cons e fs ih =>
      by_cases hkeep : (!(e.1 == d || String.isPrefixOf (d ++ "/") e.1)) = true
      · have hne : (p == e.1) = false := by
          rcases h with h | h
          · subst h
            simp only [Bool.not_eq_true', Bool.or_eq_false_iff] at hkeep
            by_cases hpe : p = e.1
            · subst hpe; simp at hkeep
            · exact beq_false_of_ne hpe
          · simp only [Bool.not_eq_true', Bool.or_eq_false_iff] at hkeep
            by_cases hpe : p = e.1
            · rw [hpe] at h; rw [h] at hkeep; simp at hkeep
            · exact beq_false_of_ne hpe
        simp only [removeDirAll, List.filter] at ih ⊢
        rw [hkeep]
        simp only [pathExists, List.lookup, hne]
        exact ih
      · simp only [removeDirAll, List.filter] at ih ⊢
        rw [Bool.not_eq_true] at hkeep
        rw [hkeep]
        exact ih

/-- A successful `download_image` leaves the destination file present. -/
theorem download_image_ok_exists (resp : HttpOutcome) (path : String) (fs fs2 : FileSystem)
    (h : download_image resp path fs = (fs2, .ok ())) :
    pathExists fs2 path = true := by
  cases resp with
  | transportError msg => simp [download_image] at h
  | response code body =>
      by_cases hc : code = 200
      · subst hc
        simp only [download_image, ne_eq, not_true_eq_false, if_false, ite_false,
          Prod.mk.injEq] at h
        obtain ⟨h1, -⟩ := h
        subst h1
        simp [pathExists, createFile, List.lookup]
      · simp [download_image, hc] at h

/-- A successful `create_fs` returns the canonical per-workload path, and that
path exists in the resulting filesystem. -/
theorem create_fs_ok_exists (http : String → HttpOutcome) (w : WorkloadDefinition)
    (fs fs' : FileSystem) (p : String)
    (h : create_fs http w fs = (fs', .ok p)) :
    p = "/tmp/" ++ w.name ++ "/rootfs.ext4" ∧ pathExists fs' p = true := by
  unfold create_fs at h
  cases hu : w.get_rootfs_url with
  | none => rw [hu] at h; simp at h
  | some u =>
      rw [hu] at h
      simp only at h
      by_cases hex : pathExists fs ("/tmp/" ++ w.name ++ "/rootfs.ext4") = true
      · rw [if_pos hex] at h
        simp only [Prod.mk.injEq, Except.ok.injEq] at h
        obtain ⟨rfl, rfl⟩ := h
        exact ⟨rfl, hex⟩
      · rw [if_neg hex] at h
        rcases hcd : createDir fs ("/tmp/" ++ w.name) with ⟨fs1, r1⟩
        rw [hcd] at h
        cases r1 with
        | error e => simp at h
        | ok _ =>
            simp only at h
            rcases hdl : download_image (http u) ("/tmp/" ++ w.name ++ "/rootfs.ext4") fs1
              with ⟨fs2, r2⟩
            rw [hdl] at h
            cases r2 with
            | ok _ =>
                simp only [Prod.mk.injEq, Except.ok.injEq] at h
                obtain ⟨rfl, rfl⟩ := h
                exact ⟨rfl, download_image_ok_exists (http u) _ fs1 _ hdl⟩
            | error e => simp at h

/-! Claim theorems. -/

/-- C5: for every successful run of `FunctionRuntime::up()`, the collaborator
calls occur exactly in the order `network.init`, config build, `machine.create`,
`network.preboot`, `machine.start`; in particular `machine.create` is never
invoked after `network.preboot`. -/
theorem up_success_ordering (rt : FunctionRuntime) (env : StepOutcomes) (s : ExtState)
    (h : (rt.up env s).result = .ok ()) :
    (rt.up env s).trace =
      [.networkInit, .configBuild, .machineCreate, .networkPreboot, .machineStart] := by
  rcases env with ⟨i, c, cr, p, st⟩
  cases i <;> cases c <;> cases cr <;> cases p <;> cases st <;>
    simp_all [FunctionRuntime.up]

/-- Witness for C5: a concrete all-steps-succeed run of `up()` returns `Ok` and
produces the claimed call order. -/
theorem up_success_ordering_witness :
    (sampleRuntime.up allStepsOk ExtState.clean).trace =
      [.networkInit, .configBuild, .machineCreate, .networkPreboot, .machineStart] :=
  up_success_ordering sampleRuntime allStepsOk ExtState.clean rfl

/-- Counterexample to C1 as stated: injecting a failure at step 4
(`network.preboot`) of `up()` leaves external state different from never having
called `up()` — the tap created at step 1 is not compensated. -/
theorem up_partial_failure_cex :
    (sampleRuntime.up failAtPreboot ExtState.clean).result ≠ .ok () ∧
    (sampleRuntime.up failAtPreboot ExtState.clean).state ≠ ExtState.clean := by
  constructor <;> decide

/-- C1 amended: `up()` performs no compensating teardown at all. A failure at
any step is returned immediately, `machine.kill` / `network.destroy` are never
called inside `up()`, and whenever step 1 (`network.init`) succeeded but the
run failed, the tap remains and the external state differs from never calling
`up()`. -/
theorem up_failure_no_teardown (rt : FunctionRuntime) (env : StepOutcomes)
    (hinit : env.initOk = true)
    (hfail : (rt.up env ExtState.clean).result ≠ .ok ()) :
    Event.machineKill ∉ (rt.up env ExtState.clean).trace ∧
    Event.networkDestroy ∉ (rt.up env ExtState.clean).trace ∧
    (rt.up env ExtState.clean).state.tapExists = true ∧
    (rt.up env ExtState.clean).state ≠ ExtState.clean := by
  rcases env with ⟨i, c, cr, p, st⟩
  cases i
  · simp at hinit
  · cases c <;> cases cr <;> cases p <;> cases st <;>
      simp_all [FunctionRuntime.up, ExtState.clean]

/-- Witness for C1's amended theorem at the concrete fail-at-preboot run. -/
theorem up_failure_no_teardown_witness :
    Event.machineKill ∉ (sampleRuntime.up failAtPreboot ExtState.clean).trace ∧
    Event.networkDestroy ∉ (sampleRuntime.up failAtPreboot ExtState.clean).trace ∧
    (sampleRuntime.up failAtPreboot ExtState.clean).state.tapExists = true ∧
    (sampleRuntime.up failAtPreboot ExtState.clean).state ≠ ExtState.clean :=
  up_failure_no_teardown sampleRuntime failAtPreboot rfl (by decide)

/-- Counterexample to C2 as stated: when `machine.kill()` fails, `down()` does
not proceed to `network.destroy()` — it returns the `FirecrackerError` at once
and `network.destroy` never appears in the call trace. -/
theorem down_kill_error_cex :
    (runningRuntime.down ⟨false, true⟩ ExtState.clean).result =
      .error (.FirecrackerError "machine kill failed") ∧
    Event.networkDestroy ∉ (runningRuntime.down ⟨false, true⟩ ExtState.clean).trace := by
  constructor
  · rfl
  · decide

/-- C2 amended: for `machine = Some`, `down()` calls `machine.kill()` first;
a kill error is propagated immediately (mapped to `FirecrackerError`) without
calling `network.destroy()` and without touching external state, and
`network.destroy()` is called exactly when `kill()` succeeded. -/
theorem down_kill_order (rt : FunctionRuntime) (env : DownOutcomes) (s : ExtState)
    (m : Machine) (hm : rt.machine = some m) :
    (env.killOk = false →
      (rt.down env s).result = .error (.FirecrackerError "machine kill failed") ∧
      Event.networkDestroy ∉ (rt.down env s).trace ∧
      (rt.down env s).state = s) ∧
    (env.killOk = true →
      (rt.down env s).trace = [.machineKill, .networkDestroy]) := by
  rcases env with ⟨k, d⟩
  cases k <;> cases d <;> simp_all [FunctionRuntime.down]

/-- Witness for C2's amended theorem at a concrete kill-fails run. -/
theorem down_kill_order_witness :
    (runningRuntime.down ⟨false, true⟩ ExtState.clean).result =
      .error (.FirecrackerError "machine kill failed") ∧
    Event.networkDestroy ∉ (runningRuntime.down ⟨false, true⟩ ExtState.clean).trace ∧
    (runningRuntime.down ⟨false, true⟩ ExtState.clean).state = ExtState.clean :=
  (down_kill_order runningRuntime ⟨false, true⟩ ExtState.clean .mk rfl).1 rfl

/-- C4, the code bug evaluated: after a successful `up()` followed by a
successful `down()` (the VM is killed, `vmRunning = false`), the source still
has `machine = Some` because `down()` never assigns `self.machine = None`,
contradicting both the claimed invariant and the field's own doc comment. -/
theorem machine_not_cleared_after_down :
    (sampleRuntime.up allStepsOk ExtState.clean).result = .ok () ∧
    ((sampleRuntime.up allStepsOk ExtState.clean).rt.down ⟨true, true⟩
        (sampleRuntime.up allStepsOk ExtState.clean).state).result = .ok () ∧
    ((sampleRuntime.up allStepsOk ExtState.clean).rt.down ⟨true, true⟩
        (sampleRuntime.up allStepsOk ExtState.clean).state).rt.machine = some .mk ∧
    ((sampleRuntime.up allStepsOk ExtState.clean).rt.down ⟨true, true⟩
        (sampleRuntime.up allStepsOk ExtState.clean).state).state.vmRunning = false := by
  decide

/-- Counterexample to C3 as stated: a registry answering 404 makes `create_fs`
return the catch-all `RuntimeError::Error` variant with the message
`"Response code from registry: 404"` — the source's error enum has no
`Http(code)` class carrying the response code — while the download directory
is indeed deleted. -/
theorem create_fs_http404_cex :
    create_fs http404 helloWorkload [] =
      ([], .error (.Error "Response code from registry: 404")) ∧
    pathExists (create_fs http404 helloWorkload []).1 "/tmp/hello" = false := by
  constructor <;> rfl

/-- C3 amended: a non-200 response makes the fetch fail with the catch-all
`Error ("Response code from registry: <code>")` variant (not a structured
`Http(code)` class), and the per-workload download directory created for the
fetch — and everything under it — is deleted recursively before the error is
propagated. -/
theorem create_fs_non200 (http : String → HttpOutcome) (w : WorkloadDefinition)
    (fs : FileSystem) (u : String) (code : Nat) (body : List Nat)
    (hu : w.get_rootfs_url = some u)
    (hresp : http u = .response code body)
    (hcode : code ≠ 200)
    (hnofile : pathExists fs ("/tmp/" ++ w.name ++ "/rootfs.ext4") = false)
    (hnodir : pathExists fs ("/tmp/" ++ w.name) = false) :
    (create_fs http w fs).2 =
      .error (.Error ("Response code from registry: " ++ toString code)) ∧
    pathExists (create_fs http w fs).1 ("/tmp/" ++ w.name) = false ∧
    (∀ p, String.isPrefixOf ("/tmp/" ++ w.name ++ "/") p = true →
      pathExists (create_fs http w fs).1 p = false) := by
  have hres : create_fs http w fs =
      (removeDirAll ((("/tmp/" ++ w.name), FsEntry.dir) :: fs) ("/tmp/" ++ w.name),
        .error (.Error ("Response code from registry: " ++ toString code))) := by
    unfold create_fs
    rw [hu]
    simp only
    rw [if_neg (by simp [hnofile])]
    rw [show createDir fs ("/tmp/" ++ w.name) =
        ((("/tmp/" ++ w.name), FsEntry.dir) :: fs, Except.ok ()) from by
      simp [createDir, hnodir]]
    simp only
    rw [hresp]
    simp only [download_image]
    rw [if_pos hcode]
  rw [hres]
  refine ⟨rfl, ?_, ?_⟩
  · exact pathExists_removeDirAll _ _ _ (Or.inl rfl)
  · intro p hp
    exact pathExists_removeDirAll _ _ _ (Or.inr hp)

/-- Witness for C3's amended theorem at the concrete 404 run. -/
theorem create_fs_non200_witness :
    (create_fs http404 helloWorkload []).2 =
      .error (.Error ("Response code from registry: " ++ toString 404)) ∧
    pathExists (create_fs http404 helloWorkload []).1 ("/tmp/" ++ helloWorkload.name) = false := by
  have h := create_fs_non200 http404 helloWorkload [] "http://registry/rootfs.ext4" 404 []
    rfl rfl (by decide) rfl rfl
  exact ⟨h.1, h.2.1⟩

/-- C6: `download_image` writes the destination only after a successful
200 transfer, and then writes the entire buffered body at once; on a transport
failure or a non-200 response it returns an error, leaves the filesystem
unchanged, and the destination path still does not exist (no partial file). -/
theorem download_image_write_iff_200 (resp : HttpOutcome) (path : String) (fs : FileSystem)
    (hne : fs.lookup path = none) :
    (∀ body, resp = .response 200 body →
      (download_image resp path fs).2 = .ok () ∧
      (download_image resp path fs).1.lookup path = some (.file body)) ∧
    (∀ e, (download_image resp path fs).2 = .error e →
      (download_image resp path fs).1 = fs ∧
      (download_image resp path fs).1.lookup path = none) := by
  cases resp with
  | transportError msg => simp [download_image, hne]
  | response code body =>
      by_cases hc : code = 200
      · subst hc
        simp [download_image, createFile, List.lookup]
      · simp [download_image, hc, hne]

/-- Witness for C6 at a concrete 200 transfer with a 3-byte body. -/
theorem download_image_write_iff_200_witness :
    (download_image (.response 200 [1, 2, 3]) "/tmp/hello/rootfs.ext4" []).2 = .ok () ∧
    (download_image (.response 200 [1, 2, 3]) "/tmp/hello/rootfs.ext4" []).1.lookup
      "/tmp/hello/rootfs.ext4" = some (.file [1, 2, 3]) :=
  (download_image_write_iff_200 (.response 200 [1, 2, 3]) "/tmp/hello/rootfs.ext4" [] rfl).1
    [1, 2, 3] rfl

/-- C7: once `create_fs` has returned a path `p` for a workload, a later
`create_fs` for any workload with the same name (and some rootfs URL) returns
the same `p` immediately: the filesystem is completely unchanged (so the
cached file's contents are untouched) and the result does not depend on the
HTTP oracle at all — no download happens and the cached file is not
validated. -/
theorem create_fs_cache_hit (http http' : String → HttpOutcome) (w w' : WorkloadDefinition)
    (fs fs' : FileSystem) (p u' : String)
    (h1 : create_fs http w fs = (fs', .ok p))
    (hname : w'.name = w.name)
    (hu' : w'.get_rootfs_url = some u') :
    create_fs http' w' fs' = (fs', .ok p) := by
  obtain ⟨hp, hex⟩ := create_fs_ok_exists http w fs fs' p h1
  have hpath : "/tmp/" ++ w'.name ++ "/rootfs.ext4" = p := by rw [hname, hp]
  unfold create_fs
  rw [hu']
  simp only
  rw [hpath, if_pos hex]

/-- Witness for C7: after a fresh download, a second call for the same name
returns the same path with the filesystem untouched, even under an HTTP oracle
whose transport always fails. -/
theorem create_fs_cache_hit_witness :
    create_fs httpDown helloWorkload (create_fs http200 helloWorkload []).1 =
      ((create_fs http200 helloWorkload []).1, .ok "/tmp/hello/rootfs.ext4") :=
  create_fs_cache_hit http200 httpDown helloWorkload helloWorkload []
    (create_fs http200 helloWorkload []).1 "/tmp/hello/rootfs.ext4"
    "http://registry/rootfs.ext4" rfl rfl rfl

/-- C8: whenever `generate_microvm_config` succeeds, the boot args of the
produced configuration are the static prefix, one space, and the clause
`ip=<guest_ip>::<host_ip>:<mask_long>::eth0:off`, with the host IP in the
gateway position. -/
theorem generate_config_boot_args (rt : FunctionRuntime) (mac : String) (cfg : Configuration)
    (h : rt.generate_microvm_config mac = .ok cfg) :
    cfg.kernel.boot_args =
      BOOT_ARGS_STATIC ++ " " ++
        ("ip=" ++ rt.network.guest_ip ++ "::" ++ rt.network.host_ip ++ ":" ++
          rt.network.mask_long ++ "::eth0:off") := by
  have hb : cfg.kernel.boot_args = kernel_args rt.network := by
    unfold FunctionRuntime.generate_microvm_config at h
    cases htap : rt.network.tap_name with
    | error e => rw [htap] at h; simp at h
    | ok tap =>
        rw [htap] at h
        simp only [Except.ok.injEq] at h
        rw [← h]
  rw [hb]
  unfold kernel_args
  rw [show BOOT_ARGS_STATIC ++ " ip=" = BOOT_ARGS_STATIC ++ " " ++ "ip=" from by
    rw [string_append_assoc]; rfl]
  simp only [string_append_assoc]

/-- Witness for C8 at the sample runtime and a fixed MAC. -/
theorem generate_config_boot_args_witness :
    kernel_args sampleNetwork =
      BOOT_ARGS_STATIC ++ " " ++
        ("ip=" ++ sampleRuntime.network.guest_ip ++ "::" ++ sampleRuntime.network.host_ip ++ ":"
          ++ sampleRuntime.network.mask_long ++ "::eth0:off") := by
  have hcfg : sampleRuntime.generate_microvm_config "02:00:00:00:00:01" =
      .ok { id := "inst-1"
            kernel := { image_path := "/var/lib/rik/kernel"
                        boot_args := kernel_args sampleNetwork }
            drive := { drive_id := "rootfs", path_on_host := "/tmp/hello/rootfs.ext4"
                       is_root_device := true }
            net_iface := { iface_id := "eth0", guest_mac := "02:00:00:00:00:01"
                           host_dev_name := "tap_1" }
            executor := { chroot := DEFAULT_FIRECRACKER_WORKSPACE
                          exec_binary := "/usr/bin/firecracker" } } := rfl
  exact generate_config_boot_args sampleRuntime "02:00:00:00:00:01" _ hcfg

/-- C9: when a function workload's spec has no `function` entry (so no rootfs
URL can be obtained), `create_fs` returns the error
`Error "Rootfs url not found"` — not a panic — and the filesystem is untouched:
no download directory is created. -/
theorem create_fs_no_rootfs_url (http : String → HttpOutcome) (w : WorkloadDefinition)
    (fs : FileSystem) (h : w.get_rootfs_url = none) :
    create_fs http w fs = (fs, .error (.Error "Rootfs url not found")) := by
  unfold create_fs
  rw [h]

/-- Witness for C9 at the concrete function workload without a `function`
entry. -/
theorem create_fs_no_rootfs_url_witness :
    create_fs http404 noFnWorkload [] = ([], .error (.Error "Rootfs url not found")) :=
  create_fs_no_rootfs_url http404 noFnWorkload [] rfl

/-- C10: when the duplicate-name lookup succeeds, the controller's workload
`create` handler does not invoke the repository insert and answers the body
`"Name already used"` with HTTP status 404, whatever the insert oracle would
have said. -/
theorem workload_create_duplicate_name (w : WorkloadDefinition) (insertResult : Option Nat) :
    workload_create (.ok w) true insertResult =
      .ok ({ body := "Name already used", status := 404 }, false) := rfl

end Rik
